import Mathlib

/-!
Verification of the retry/backoff utility of `project-tracker-bot`
(`src/utils/retry` module: `retryWithBackoff`, `retryDatabaseOperation`).

The JavaScript source is embedded shallowly:

* a JavaScript `Error` value is modelled by `JsError` (its `message` field is
  what the code reads);
* the operation `fn` is modelled as a function from the invocation index
  (1-based, the loop variable `attempt`) to `Except JsError V`: invocation `i`
  either returns a value (`Except.ok`) or throws (`Except.error`);
* each `logger.info` / `logger.warn` / `logger.error` call is one structured
  `LogEvent`, carrying exactly the data interpolated into the message;
* the `setTimeout` wait and the `fn()` call are recorded in an ordered trace
  of `Step`s, so that ordering claims are statements about that trace;
* the loop `for (let attempt = 1; attempt <= maxRetries + 1; attempt++)`
  is `retryLoop`, driven by the remaining iteration count
  `(maxRetries + 1).toNat` (`maxRetries` is an `Int`, so that calls that
  violate the documented non-negativity are also modelled);
* `throw` / returned promise rejection is `Except.error` in the result; the
  never-assigned `lastError` (JavaScript `undefined`) is `Option.none`.
-/

namespace RetryUtil

/-- A JavaScript `Error`: the retry code only ever reads `error.message`. -/
structure JsError where
  message : String
deriving DecidableEq, Repr

/-- One `logger.*` call made by `retryWithBackoff`, with the data that the
source interpolates into the message string.

* `succeededOnAttempt` : `logger.info` "✅ {operation} succeeded on attempt {attempt}"
* `failedOnAttempt`  : `logger.warn` "❌ {operation} failed on attempt {attempt}/{maxRetries+1}: {error.message}"
* `retryingIn`     : `logger.info` "⏳ Retrying in {delay}ms..."
* `failedAfter`    : `logger.error` "💥 {operation} failed after {maxRetries+1} attempts" -/
inductive LogEvent where
  | succeededOnAttempt (operation : String) (attempt : Nat)
  | failedOnAttempt (operation : String) (attempt : Nat) (total : Int) (errMessage : String)
  | retryingIn (delay : Nat)
  | failedAfter (operation : String) (total : Int)
deriving DecidableEq, Repr

/-- One externally visible step of an execution: an invocation of `fn`
(with its 1-based attempt index) or a timed wait of `delay` milliseconds. -/
inductive Step where
  | invoke (attempt : Nat)
  | wait (delay : Nat)
deriving DecidableEq, Repr

/-- Everything observable about one execution of `retryWithBackoff`:
how often `fn` was invoked, the inter-attempt delays in order, the ordered
invocation/wait trace, the emitted log events in order, and the outcome
(`Except.ok v` for a returned value, `Except.error (some e)` for a thrown
error, `Except.error none` for a thrown `undefined`). -/
structure RetryTrace (V : Type) where
  invocations : Nat
  delays : List Nat
  steps : List Step
  events : List LogEvent
  result : Except (Option JsError) V
deriving Repr

/-- Line 36 of the source:
`const delay = Math.min(baseDelay * Math.pow(2, attempt - 1), maxDelay)`. -/
def backoffDelay (baseDelay maxDelay attempt : Nat) : Nat :=
  min (baseDelay * 2 ^ (attempt - 1)) maxDelay

/-- The body of the `for` loop of `retryWithBackoff`, lines 23-45 of the
source. `attempt` is the loop variable; `remaining` is how many loop
iterations are still permitted (`maxRetries + 1 - attempt + 1` at entry);
`lastError` is the current value of the `lastError` variable. When the
iteration budget is exhausted the function performs `throw lastError`
(line 47). -/
def retryLoop (V : Type) (fn : Nat → Except JsError V) (maxRetries : Int)
    (baseDelay maxDelay : Nat) (operation : String) :
    Nat → Nat → Option JsError → RetryTrace V
  | _, 0, lastError => ⟨0, [], [], [], Except.error lastError⟩
  | attempt, r + 1, _lastError =>
    match fn attempt with
    | Except.ok result =>
        ⟨1, [], [Step.invoke attempt],
          if 1 < attempt then [LogEvent.succeededOnAttempt operation attempt] else [],
          Except.ok result⟩
    | Except.error e =>
        if (attempt : Int) ≤ maxRetries then
          let delay := backoffDelay baseDelay maxDelay attempt
          let rest := retryLoop V fn maxRetries baseDelay maxDelay operation
            (attempt + 1) r (some e)
          ⟨rest.invocations + 1, delay :: rest.delays,
            Step.invoke attempt :: Step.wait delay :: rest.steps,
            LogEvent.failedOnAttempt operation attempt (maxRetries + 1) e.message
              :: LogEvent.retryingIn delay :: rest.events,
            rest.result⟩
        else
          let rest := retryLoop V fn maxRetries baseDelay maxDelay operation
            (attempt + 1) r (some e)
          ⟨rest.invocations + 1, rest.delays,
            Step.invoke attempt :: rest.steps,
            LogEvent.failedAfter operation (maxRetries + 1) :: rest.events,
            rest.result⟩

/-- `retryWithBackoff(fn, { maxRetries, baseDelay, maxDelay, operation })`:
runs the loop from `attempt = 1` with `lastError` unassigned. The source
defaults (`maxRetries = 3`, `baseDelay = 1000`, `maxDelay = 10000`,
`operation = "operation"`) are supplied by callers here. -/
def retryWithBackoff (V : Type) (fn : Nat → Except JsError V) (maxRetries : Int)
    (baseDelay maxDelay : Nat) (operation : String) : RetryTrace V :=
  retryLoop V fn maxRetries baseDelay maxDelay operation 1 (maxRetries + 1).toNat none

/-- `retryDatabaseOperation(fn, operation)`, lines 56-63 of the source:
`retryWithBackoff` with the pinned configuration
`maxRetries = 5, baseDelay = 1000, maxDelay = 30000`. -/
def retryDatabaseOperation (V : Type) (fn : Nat → Except JsError V)
    (operation : String) : RetryTrace V :=
  retryWithBackoff V fn 5 1000 30000 operation

/-- The expected invocation/wait trace of `c` consecutive failed-and-retried
attempts starting at attempt `a`: each contributes an invocation followed by
its backoff wait. -/
def waitSteps (baseDelay maxDelay a c : Nat) : List Step :=
  ((List.range' a c).map
    (fun i => [Step.invoke i, Step.wait (backoffDelay baseDelay maxDelay i)])).flatten

/-- The expected log events of `c` consecutive failed-and-retried attempts
starting at attempt `a`: each contributes a failure warning and a
retry-delay notice. -/
def waitEvents (operation : String) (err : Nat → JsError) (total : Int)
    (baseDelay maxDelay a c : Nat) : List LogEvent :=
  ((List.range' a c).map
    (fun i => [LogEvent.failedOnAttempt operation i total (err i).message,
      LogEvent.retryingIn (backoffDelay baseDelay maxDelay i)])).flatten

/-- Strict sequential ordering of an invocation/wait trace, starting from
attempt index `k`: invocations carry consecutive indices `k, k+1, …`; after
a non-final invocation the full backoff delay of that attempt elapses before
the next invocation begins; no invocation overlaps another (the trace is a
linear sequence). -/
inductive SeqOrdered (baseDelay maxDelay : Nat) : Nat → List Step → Prop where
  | nil (k : Nat) : SeqOrdered baseDelay maxDelay k []
  | last (k : Nat) : SeqOrdered baseDelay maxDelay k [Step.invoke k]
  | cons (k : Nat) (rest : List Step) :
      SeqOrdered baseDelay maxDelay (k + 1) rest →
      SeqOrdered baseDelay maxDelay k
        (Step.invoke k :: Step.wait (backoffDelay baseDelay maxDelay k) :: rest)

/-- Whether a log event is a terminal event of the execution: the
"succeeded on attempt k" success event or the "failed after N attempts"
exhaustion event (as opposed to the per-wait failure warning and
retry-delay notice). -/
def isTerminalEvent : LogEvent → Bool
  | LogEvent.succeededOnAttempt _ _ => true
  | LogEvent.failedAfter _ _ => true
  | LogEvent.failedOnAttempt _ _ _ _ => false
  | LogEvent.retryingIn _ => false

/-- Characterization of the loop on an operation that throws `err i` on its
`i`-th invocation, for the reachable loop states (`attempt + remaining =
maxRetries + 2`, at least one iteration left): every remaining iteration
fails, each non-final one waits its backoff delay, and the loop ends by
throwing the error of the final attempt `maxRetries + 1`. -/
theorem retryLoop_allFail (V : Type) (err : Nat → JsError) (fn : Nat → Except JsError V)
    (N baseDelay maxDelay : Nat) (operation : String)
    (hfail : ∀ i, 1 ≤ i → fn i = Except.error (err i)) :
    ∀ (r a : Nat) (le : Option JsError), 1 ≤ a → a + (r + 1) = N + 2 →
    retryLoop V fn (N : Int) baseDelay maxDelay operation
        a (r + 1) le =
      ⟨r + 1, (List.range' a r).map (backoffDelay baseDelay maxDelay),
        waitSteps baseDelay maxDelay a r ++ [Step.invoke (N + 1)],
        waitEvents operation err ((N : Int) + 1) baseDelay maxDelay a r
          ++ [LogEvent.failedAfter operation ((N : Int) + 1)],
        Except.error (some (err (N + 1)))⟩ := by
  intro r
  induction r with
  | zero =>
    intro a le ha hsum
    have haN : a = N + 1 := by omega
    subst haN
    have hfa : fn (N + 1) = Except.error (err (N + 1)) := hfail (N + 1) (by omega)
    simp only [retryLoop, hfa, waitSteps, waitEvents, List.range'_zero, List.map_nil,
      List.flatten_nil, List.nil_append]
    have hcond : ¬ ((N + 1 : Nat) : Int) ≤ (N : Int) := by omega
    simp [hcond]
  | succ r ih =>
    intro a le ha hsum
    have haN : a ≤ N := by omega
    have hcond : ((a : Nat) : Int) ≤ (N : Int) := by omega
    have hfa : fn a = Except.error (err a) := hfail a ha
    rw [retryLoop]
    simp only [hfa, hcond, if_true]
    rw [ih (a + 1) (some (err a)) (by omega) (by omega)]
    simp only [waitSteps, waitEvents, List.range'_succ, List.map_cons,
      List.flatten_cons, List.cons_append, List.append_assoc]
    rfl

/-- Characterization of the loop on an operation that succeeds on invocation
`k` after throwing `err i` on each earlier invocation `i`, for the reachable
loop states with `attempt ≤ k ≤ maxRetries + 1`: each attempt before `k`
fails and waits its backoff delay, attempt `k` returns the value, and the
success event is emitted exactly when `k > 1`. -/
theorem retryLoop_succeedAt (V : Type) (v : V) (err : Nat → JsError)
    (fn : Nat → Except JsError V) (N baseDelay maxDelay k : Nat) (operation : String)
    (hk : fn k = Except.ok v) (hfail : ∀ i, 1 ≤ i → i < k → fn i = Except.error (err i))
    (hkN : k ≤ N + 1) :
    ∀ (r a : Nat) (le : Option JsError), 1 ≤ a → a ≤ k → a + r = N + 2 →
    retryLoop V fn (N : Int) baseDelay maxDelay operation a r le =
      ⟨k - a + 1, (List.range' a (k - a)).map (backoffDelay baseDelay maxDelay),
        waitSteps baseDelay maxDelay a (k - a) ++ [Step.invoke k],
        waitEvents operation err ((N : Int) + 1) baseDelay maxDelay a (k - a)
          ++ (if 1 < k then [LogEvent.succeededOnAttempt operation k] else []),
        Except.ok v⟩ := by
  intro r
  induction r with
  | zero =>
    intro a le ha hak hsum
    omega
  | succ r ih =>
    intro a le ha hak hsum
    rcases eq_or_lt_of_le hak with hek | hlt
    · subst hek
      rw [retryLoop]
      simp only [hk, Nat.sub_self, waitSteps, waitEvents, List.range'_zero,
        List.map_nil, List.flatten_nil, List.nil_append]
    · have hfa : fn a = Except.error (err a) := hfail a ha hlt
      have hcond : ((a : Nat) : Int) ≤ (N : Int) := by omega
      rw [retryLoop]
      simp only [hfa, hcond, if_true]
      rw [ih (a + 1) (some (err a)) (by omega) (by omega) (by omega)]
      have hka : k - a = (k - (a + 1)) + 1 := by omega
      rw [hka]
      simp only [waitSteps, waitEvents, List.range'_succ, List.map_cons,
        List.flatten_cons, List.cons_append, List.append_assoc]
      have hinv : k - (a + 1) + 1 + 1 = k - a + 1 := by omega
      simp only [hinv]
      rfl

/-- The loop invokes the operation at most once per remaining iteration. -/
theorem retryLoop_invocations_le (V : Type) (fn : Nat → Except JsError V)
    (maxRetries : Int) (baseDelay maxDelay : Nat) (operation : String) :
    ∀ (r a : Nat) (le : Option JsError),
    (retryLoop V fn maxRetries baseDelay maxDelay operation a r le).invocations ≤ r := by
  intro r
  induction r with
  | zero => intro a le; simp [retryLoop]
  | succ r ih =>
    intro a le
    rw [retryLoop]
    cases hfa : fn a with
    | ok v => simp
    | error e =>
      by_cases hc : ((a : Nat) : Int) ≤ maxRetries
      · simpa [hc] using ih (a + 1) (some e)
      · simpa [hc] using ih (a + 1) (some e)

/-- The loop's result is always a definite outcome. -/
theorem retryLoop_result_cases (V : Type) (fn : Nat → Except JsError V)
    (maxRetries : Int) (baseDelay maxDelay : Nat) (operation : String) :
    ∀ (r a : Nat) (le : Option JsError),
    (∃ v, (retryLoop V fn maxRetries baseDelay maxDelay operation a r le).result
        = Except.ok v) ∨
    (∃ e, (retryLoop V fn maxRetries baseDelay maxDelay operation a r le).result
        = Except.error e) := by
  intro r a le
  cases h : (retryLoop V fn maxRetries baseDelay maxDelay operation a r le).result with
  | ok v => exact Or.inl ⟨v, rfl⟩
  | error e => exact Or.inr ⟨e, rfl⟩

/-- The operation label influences only the emitted log events: two loop
executions that differ only in the label agree on the invocation count, the
delays, the invocation/wait trace and the outcome. -/
theorem retryLoop_label_irrelevant (V : Type) (fn : Nat → Except JsError V)
    (maxRetries : Int) (baseDelay maxDelay : Nat) (op1 op2 : String) :
    ∀ (r a : Nat) (le : Option JsError),
    (retryLoop V fn maxRetries baseDelay maxDelay op1 a r le).invocations
      = (retryLoop V fn maxRetries baseDelay maxDelay op2 a r le).invocations ∧
    (retryLoop V fn maxRetries baseDelay maxDelay op1 a r le).delays
      = (retryLoop V fn maxRetries baseDelay maxDelay op2 a r le).delays ∧
    (retryLoop V fn maxRetries baseDelay maxDelay op1 a r le).steps
      = (retryLoop V fn maxRetries baseDelay maxDelay op2 a r le).steps ∧
    (retryLoop V fn maxRetries baseDelay maxDelay op1 a r le).result
      = (retryLoop V fn maxRetries baseDelay maxDelay op2 a r le).result := by
  intro r
  induction r with
  | zero => intro a le; simp [retryLoop]
  | succ r ih =>
    intro a le
    rw [retryLoop, retryLoop]
    cases hfa : fn a with
    | ok v => simp
    | error e =>
      by_cases hc : ((a : Nat) : Int) ≤ maxRetries
      · simpa [hc] using ih (a + 1) (some e)
      · simpa [hc] using ih (a + 1) (some e)

/-- The loop's trace is strictly sequential from its starting attempt, for
every reachable loop state (`attempt + remaining ≤ maxRetries + 2`). -/
theorem retryLoop_seqOrdered (V : Type) (fn : Nat → Except JsError V)
    (maxRetries : Int) (baseDelay maxDelay : Nat) (operation : String) :
    ∀ (r a : Nat) (le : Option JsError), (a : Int) + r ≤ maxRetries + 2 →
    SeqOrdered baseDelay maxDelay a
      (retryLoop V fn maxRetries baseDelay maxDelay operation a r le).steps := by
  intro r
  induction r with
  | zero =>
    intro a le hsum
    exact SeqOrdered.nil a
  | succ r ih =>
    intro a le hsum
    rw [retryLoop]
    cases hfa : fn a with
    | ok v => exact SeqOrdered.last a
    | error e =>
      by_cases hc : ((a : Nat) : Int) ≤ maxRetries
      · simp only [hc, if_true]
        exact SeqOrdered.cons a _ (ih (a + 1) (some e) (by push_cast; omega))
      · have hr : r = 0 := by omega
        subst hr
        simp only [hc, if_false, retryLoop]
        exact SeqOrdered.last a

/-- No terminal event occurs among the per-wait events: the failure warning
and retry-delay notice emitted at each retry wait are not terminal. -/
theorem waitEvents_filter_terminal (operation : String) (err : Nat → JsError)
    (total : Int) (baseDelay maxDelay : Nat) :
    ∀ (c a : Nat),
    (waitEvents operation err total baseDelay maxDelay a c).filter isTerminalEvent
      = [] := by
  intro c
  induction c with
  | zero => intro a; simp [waitEvents]
  | succ c ih =>
    intro a
    simp only [waitEvents, List.range'_succ, List.map_cons, List.flatten_cons] at *
    rw [List.filter_append]
    simp [isTerminalEvent, ih]

/-- Each retry wait contributes exactly two observability events (the
failure warning and the retry-delay notice). -/
theorem waitEvents_length (operation : String) (err : Nat → JsError)
    (total : Int) (baseDelay maxDelay : Nat) :
    ∀ (c a : Nat),
    (waitEvents operation err total baseDelay maxDelay a c).length = 2 * c := by
  intro c
  induction c with
  | zero => intro a; simp [waitEvents]
  | succ c ih =>
    intro a
    simp only [waitEvents, List.range'_succ, List.map_cons, List.flatten_cons] at *
    rw [List.length_append, ih (a + 1)]
    show 2 + 2 * c = 2 * (c + 1)
    omega

/-- C1: with `maxRetries = N` and an operation that fails on every
invocation, `retryWithBackoff` invokes the operation exactly `N + 1` times,
performs exactly `N` inter-attempt delays, and reports failure. -/
theorem retryWithBackoff_allFail_budget (V : Type) (err : Nat → JsError)
    (fn : Nat → Except JsError V) (N baseDelay maxDelay : Nat) (operation : String)
    (hfail : ∀ i, 1 ≤ i → fn i = Except.error (err i)) :
    (retryWithBackoff V fn (N : Int) baseDelay maxDelay operation).invocations = N + 1 ∧
    (retryWithBackoff V fn (N : Int) baseDelay maxDelay operation).delays.length = N ∧
    ∃ e, (retryWithBackoff V fn (N : Int) baseDelay maxDelay operation).result
      = Except.error (some e) := by
  have ht : ((N : Int) + 1).toNat = N + 1 := by omega
  rw [retryWithBackoff, ht,
    retryLoop_allFail V err fn N baseDelay maxDelay operation hfail N 1 none
      (by omega) (by omega)]
  exact ⟨rfl, by simp, ⟨err (N + 1), rfl⟩⟩

/-- C1 witness: the "remote store" scenario `maxRetries = 5` with an
always-failing operation makes 6 invocations and 5 delays. -/
theorem retryWithBackoff_allFail_budget_witness :
    (retryWithBackoff Nat (fun _ => Except.error ⟨"boom"⟩) (5 : Int)
        1000 30000 "database operation").invocations = 5 + 1 ∧
    (retryWithBackoff Nat (fun _ => Except.error ⟨"boom"⟩) (5 : Int)
        1000 30000 "database operation").delays.length = 5 ∧
    ∃ e, (retryWithBackoff Nat (fun _ => Except.error ⟨"boom"⟩) (5 : Int)
        1000 30000 "database operation").result = Except.error (some e) :=
  retryWithBackoff_allFail_budget Nat (fun _ => ⟨"boom"⟩)
    (fun _ => Except.error ⟨"boom"⟩) 5 1000 30000 "database operation"
    (fun _ _ => rfl)

/-- C2: with `maxRetries = N` and an operation that succeeds on its `k`-th
invocation (`1 ≤ k ≤ N + 1`, all earlier invocations failing),
`retryWithBackoff` invokes the operation exactly `k` times, performs exactly
`k - 1` inter-attempt delays, and returns the value of the `k`-th
invocation. -/
theorem retryWithBackoff_succeedsOnAttempt (V : Type) (v : V) (err : Nat → JsError)
    (fn : Nat → Except JsError V) (N baseDelay maxDelay k : Nat) (operation : String)
    (h1 : 1 ≤ k) (h2 : k ≤ N + 1) (hk : fn k = Except.ok v)
    (hfail : ∀ i, 1 ≤ i → i < k → fn i = Except.error (err i)) :
    (retryWithBackoff V fn (N : Int) baseDelay maxDelay operation).invocations = k ∧
    (retryWithBackoff V fn (N : Int) baseDelay maxDelay operation).delays.length
      = k - 1 ∧
    (retryWithBackoff V fn (N : Int) baseDelay maxDelay operation).result
      = Except.ok v := by
  have ht : ((N : Int) + 1).toNat = N + 1 := by omega
  rw [retryWithBackoff, ht,
    retryLoop_succeedAt V v err fn N baseDelay maxDelay k operation hk hfail h2
      (N + 1) 1 none (by omega) h1 (by omega)]
  refine ⟨by show k - 1 + 1 = k; omega, by simp, rfl⟩

/-- C2 witness: an operation that succeeds on its third invocation under
`maxRetries = 5` is invoked 3 times with 2 delays and yields its value. -/
theorem retryWithBackoff_succeedsOnAttempt_witness :
    ((1 ≤ 3 ∧ 3 ≤ 5 + 1) ∧
      (fun i => if i = 3 then Except.ok 7 else Except.error (⟨"e"⟩ : JsError)) 3
        = Except.ok 7) ∧
    (retryWithBackoff Nat
        (fun i => if i = 3 then Except.ok 7 else Except.error ⟨"e"⟩)
        (5 : Int) 1000 30000 "database operation").invocations = 3 ∧
    (retryWithBackoff Nat
        (fun i => if i = 3 then Except.ok 7 else Except.error ⟨"e"⟩)
        (5 : Int) 1000 30000 "database operation").delays.length = 3 - 1 ∧
    (retryWithBackoff Nat
        (fun i => if i = 3 then Except.ok 7 else Except.error ⟨"e"⟩)
        (5 : Int) 1000 30000 "database operation").result = Except.ok 7 :=
  ⟨⟨⟨by omega, by omega⟩, rfl⟩,
    retryWithBackoff_succeedsOnAttempt Nat 7 (fun _ => ⟨"e"⟩)
      (fun i => if i = 3 then Except.ok 7 else Except.error ⟨"e"⟩)
      5 1000 30000 3 "database operation" (by omega) (by omega) rfl
      (fun i _ hi => if_neg (by omega))⟩

/-- C3 counterexample: with `baseDelay = 5000` and `maxDelay = 2000` and an
always-failing operation, the delay before the second attempt is `2000`
(the cap), not `baseDelay = 5000` as the claim asserts. -/
theorem retryWithBackoff_firstDelay_counterexample :
    (retryWithBackoff Nat (fun _ => Except.error ⟨"boom"⟩) (1 : Int)
        5000 2000 "operation").delays = [2000] ∧ (2000 : Nat) ≠ 5000 := by
  refine ⟨?_, by omega⟩
  rfl

/-- C3 amended: for an always-failing operation under `maxRetries = N`, the
delay between the `k`-th failed invocation and the `(k+1)`-th invocation
(`1 ≤ k ≤ N`) equals `min(baseDelay * 2^(k-1), maxDelay)`; in particular
the delay before the second attempt equals `min(baseDelay, maxDelay)`
(which is `baseDelay` whenever `baseDelay ≤ maxDelay`), and when
`maxDelay < baseDelay` every delay equals `maxDelay`. -/
theorem retryWithBackoff_delay_formula (V : Type) (err : Nat → JsError)
    (fn : Nat → Except JsError V) (N baseDelay maxDelay k : Nat) (operation : String)
    (hfail : ∀ i, 1 ≤ i → fn i = Except.error (err i))
    (h1 : 1 ≤ k) (h2 : k ≤ N) :
    (retryWithBackoff V fn (N : Int) baseDelay maxDelay operation).delays[k - 1]?
      = some (backoffDelay baseDelay maxDelay k) ∧
    backoffDelay baseDelay maxDelay k = min (baseDelay * 2 ^ (k - 1)) maxDelay ∧
    (baseDelay ≤ maxDelay →
      (retryWithBackoff V fn (N : Int) baseDelay maxDelay operation).delays[0]?
        = some baseDelay) ∧
    (maxDelay < baseDelay →
      (retryWithBackoff V fn (N : Int) baseDelay maxDelay operation).delays[k - 1]?
        = some maxDelay) := by
  have ht : ((N : Int) + 1).toNat = N + 1 := by omega
  rw [retryWithBackoff, ht,
    retryLoop_allFail V err fn N baseDelay maxDelay operation hfail N 1 none
      (by omega) (by omega)]
  have hproj :
      ({ invocations := N + 1,
         delays := (List.range' 1 N).map (backoffDelay baseDelay maxDelay),
         steps := waitSteps baseDelay maxDelay 1 N ++ [Step.invoke (N + 1)],
         events := waitEvents operation err ((N : Int) + 1) baseDelay maxDelay 1 N
           ++ [LogEvent.failedAfter operation ((N : Int) + 1)],
         result := Except.error (some (err (N + 1))) } : RetryTrace V).delays
      = (List.range' 1 N).map (backoffDelay baseDelay maxDelay) := rfl
  rw [hproj]
  have hget : ∀ j, j < N →
      ((List.range' 1 N).map (backoffDelay baseDelay maxDelay))[j]?
        = some (backoffDelay baseDelay maxDelay (1 + j)) := by
    intro j hj
    rw [List.getElem?_map, List.getElem?_range']
    · simp
    · exact hj
  have hk1 : 1 + (k - 1) = k := by omega
  refine ⟨?_, rfl, ?_, ?_⟩
  · rw [hget (k - 1) (by omega), hk1]
  · intro hbm
    rw [hget 0 (by omega)]
    simp [backoffDelay, hbm]
  · intro hmb
    rw [hget (k - 1) (by omega), hk1]
    have hble : baseDelay ≤ baseDelay * 2 ^ (k - 1) :=
      Nat.le_mul_of_pos_right baseDelay (Nat.pos_pow_of_pos _ (by omega))
    have : min (baseDelay * 2 ^ (k - 1)) maxDelay = maxDelay :=
      Nat.min_eq_right (le_trans (le_of_lt hmb) hble)
    rw [backoffDelay, this]

/-- C3 amended witness: `baseDelay = 5000, maxDelay = 2000, N = 2, k = 1`:
the first delay is `min(5000, 2000) = 2000 = maxDelay`. -/
theorem retryWithBackoff_delay_formula_witness :
    (1 ≤ 1 ∧ 1 ≤ 2) ∧
    ((retryWithBackoff Nat (fun _ => Except.error ⟨"boom"⟩) (2 : Int)
        5000 2000 "operation").delays[1 - 1]?
      = some (backoffDelay 5000 2000 1) ∧
    backoffDelay 5000 2000 1 = min (5000 * 2 ^ (1 - 1)) 2000 ∧
    (5000 ≤ 2000 →
      (retryWithBackoff Nat (fun _ => Except.error ⟨"boom"⟩) (2 : Int)
          5000 2000 "operation").delays[0]? = some 5000) ∧
    (2000 < 5000 →
      (retryWithBackoff Nat (fun _ => Except.error ⟨"boom"⟩) (2 : Int)
          5000 2000 "operation").delays[1 - 1]? = some 2000)) :=
  ⟨⟨by omega, by omega⟩,
    retryWithBackoff_delay_formula Nat (fun _ => ⟨"boom"⟩)
      (fun _ => Except.error ⟨"boom"⟩) 2 5000 2000 1 "operation"
      (fun _ _ => rfl) (by omega) (by omega)⟩

/-- C4: when every invocation fails, the error propagated to the caller is
exactly the error thrown by the final invocation `N + 1`, unwrapped and
untransformed; no earlier error is returned. -/
theorem retryWithBackoff_propagates_final_error (V : Type) (err : Nat → JsError)
    (fn : Nat → Except JsError V) (N baseDelay maxDelay : Nat) (operation : String)
    (hfail : ∀ i, 1 ≤ i → fn i = Except.error (err i)) :
    (retryWithBackoff V fn (N : Int) baseDelay maxDelay operation).result
      = Except.error (some (err (N + 1))) := by
  have ht : ((N : Int) + 1).toNat = N + 1 := by omega
  rw [retryWithBackoff, ht,
    retryLoop_allFail V err fn N baseDelay maxDelay operation hfail N 1 none
      (by omega) (by omega)]

/-- C4 witness: with distinct errors per attempt and `maxRetries = 2`, it is
the attempt-3 error that is propagated. -/
theorem retryWithBackoff_propagates_final_error_witness :
    (retryWithBackoff Nat (fun i => Except.error ⟨toString i⟩) (2 : Int)
        1000 10000 "operation").result
      = Except.error (some ⟨toString (2 + 1)⟩) :=
  retryWithBackoff_propagates_final_error Nat (fun i => ⟨toString i⟩)
    (fun i => Except.error ⟨toString i⟩) 2 1000 10000 "operation"
    (fun _ _ => rfl)

/-- C5: for every operation and every non-negative `maxRetries = N`,
`retryWithBackoff` terminates with a definite outcome — a returned value or
a propagated error — after at most `N + 1` invocations of the operation. -/
theorem retryWithBackoff_terminates (V : Type) (fn : Nat → Except JsError V)
    (N baseDelay maxDelay : Nat) (operation : String) :
    (retryWithBackoff V fn (N : Int) baseDelay maxDelay operation).invocations
      ≤ N + 1 ∧
    ((∃ v, (retryWithBackoff V fn (N : Int) baseDelay maxDelay operation).result
        = Except.ok v) ∨
      (∃ e, (retryWithBackoff V fn (N : Int) baseDelay maxDelay operation).result
        = Except.error e)) := by
  have ht : ((N : Int) + 1).toNat = N + 1 := by omega
  rw [retryWithBackoff, ht]
  exact ⟨retryLoop_invocations_le V fn (N : Int) baseDelay maxDelay operation
      (N + 1) 1 none,
    retryLoop_result_cases V fn (N : Int) baseDelay maxDelay operation
      (N + 1) 1 none⟩

/-- C6: `retryDatabaseOperation fn label` is definitionally the same
execution as `retryWithBackoff` with the pinned configuration
`maxRetries = 5, baseDelay = 1000, maxDelay = 30000`: same trace, same
invocation count, same delays, same events, same outcome. -/
theorem retryDatabaseOperation_is_pinned_config (V : Type)
    (fn : Nat → Except JsError V) (operation : String) :
    retryDatabaseOperation V fn operation
      = retryWithBackoff V fn (5 : Int) 1000 30000 operation := rfl

/-- C7: within a single execution, attempts are strictly sequential and
totally ordered: the invocation/wait trace is a linear sequence in which
invocation `k + 1` appears only after invocation `k` and after the full
backoff delay of attempt `k`, and invocations carry consecutive indices
starting at 1, so no two invocations overlap. -/
theorem retryWithBackoff_sequential (V : Type) (fn : Nat → Except JsError V)
    (N baseDelay maxDelay : Nat) (operation : String) :
    SeqOrdered baseDelay maxDelay 1
      (retryWithBackoff V fn (N : Int) baseDelay maxDelay operation).steps := by
  rw [retryWithBackoff]
  exact retryLoop_seqOrdered V fn (N : Int) baseDelay maxDelay operation
    ((N : Int) + 1).toNat 1 none (by omega)

/-- C8: the operation label carries no behavioral effect: two executions
differing only in the label have the same invocation count, the same delay
sequence, the same invocation/wait trace, and the same outcome (the label
only appears in the log events). -/
theorem retryWithBackoff_label_noninterference (V : Type)
    (fn : Nat → Except JsError V) (maxRetries : Int) (baseDelay maxDelay : Nat)
    (op1 op2 : String) :
    (retryWithBackoff V fn maxRetries baseDelay maxDelay op1).invocations
      = (retryWithBackoff V fn maxRetries baseDelay maxDelay op2).invocations ∧
    (retryWithBackoff V fn maxRetries baseDelay maxDelay op1).delays
      = (retryWithBackoff V fn maxRetries baseDelay maxDelay op2).delays ∧
    (retryWithBackoff V fn maxRetries baseDelay maxDelay op1).steps
      = (retryWithBackoff V fn maxRetries baseDelay maxDelay op2).steps ∧
    (retryWithBackoff V fn maxRetries baseDelay maxDelay op1).result
      = (retryWithBackoff V fn maxRetries baseDelay maxDelay op2).result := by
  rw [retryWithBackoff, retryWithBackoff]
  exact retryLoop_label_irrelevant V fn maxRetries baseDelay maxDelay op1 op2
    (maxRetries + 1).toNat 1 none

/-- C9 counterexample: an operation that succeeds on its first invocation
emits no observability event at all — in particular no terminal
"succeeded" event; and an always-failing run under `maxRetries = 1`, which
has exactly one retry wait, emits three events (a failure warning and a
retry-delay notice at the wait, then the terminal event), not the two that
one event per retry wait plus one terminal event would give. -/
theorem retryWithBackoff_events_counterexample :
    (retryWithBackoff Nat (fun _ => Except.ok 0) (3 : Int)
        1000 10000 "operation").events = [] ∧
    (retryWithBackoff Nat (fun _ => Except.error ⟨"boom"⟩) (1 : Int)
        1000 10000 "operation").events
      = [LogEvent.failedOnAttempt "operation" 1 2 "boom",
          LogEvent.retryingIn 1000,
          LogEvent.failedAfter "operation" 2] ∧
    (retryWithBackoff Nat (fun _ => Except.error ⟨"boom"⟩) (1 : Int)
        1000 10000 "operation").events.length = 3 ∧
    (3 : Nat) ≠ 1 + 1 := by
  refine ⟨rfl, rfl, rfl, by omega⟩

/-- C9 amended: each retry wait emits exactly two observability events (the
failure warning with attempt index and error message, and the retry-delay
notice), and every execution emits exactly one terminal event — "failed
after N+1 attempts" on exhaustion, "succeeded on attempt k" on success at
attempt `k > 1` — except that an execution succeeding on its first
invocation emits no terminal event (indeed no event at all): the full event
streams of the two execution shapes are given, together with the per-wait
event count and the terminal-event filters. -/
theorem retryWithBackoff_terminal_events (V : Type) (v : V) (err : Nat → JsError)
    (fnFail fn : Nat → Except JsError V) (N baseDelay maxDelay k : Nat)
    (operation : String) (c a : Nat)
    (hallfail : ∀ i, 1 ≤ i → fnFail i = Except.error (err i))
    (h1 : 1 ≤ k) (h2 : k ≤ N + 1) (hk : fn k = Except.ok v)
    (hfail : ∀ i, 1 ≤ i → i < k → fn i = Except.error (err i)) :
    ((retryWithBackoff V fnFail (N : Int) baseDelay maxDelay operation).events
      = waitEvents operation err ((N : Int) + 1) baseDelay maxDelay 1 N
        ++ [LogEvent.failedAfter operation ((N : Int) + 1)]) ∧
    ((retryWithBackoff V fn (N : Int) baseDelay maxDelay operation).events
      = waitEvents operation err ((N : Int) + 1) baseDelay maxDelay 1 (k - 1)
        ++ (if 1 < k then [LogEvent.succeededOnAttempt operation k] else [])) ∧
    ((waitEvents operation err ((N : Int) + 1) baseDelay maxDelay a c).length
      = 2 * c) ∧
    ((retryWithBackoff V fnFail (N : Int) baseDelay maxDelay operation).events.filter
        isTerminalEvent
      = [LogEvent.failedAfter operation ((N : Int) + 1)]) ∧
    ((retryWithBackoff V fn (N : Int) baseDelay maxDelay operation).events.filter
        isTerminalEvent
      = if 1 < k then [LogEvent.succeededOnAttempt operation k] else []) := by
  have ht : ((N : Int) + 1).toNat = N + 1 := by omega
  have hfe : (retryWithBackoff V fnFail (N : Int) baseDelay maxDelay operation).events
      = waitEvents operation err ((N : Int) + 1) baseDelay maxDelay 1 N
        ++ [LogEvent.failedAfter operation ((N : Int) + 1)] := by
    rw [retryWithBackoff, ht,
      retryLoop_allFail V err fnFail N baseDelay maxDelay operation hallfail N 1 none
        (by omega) (by omega)]
  have hse : (retryWithBackoff V fn (N : Int) baseDelay maxDelay operation).events
      = waitEvents operation err ((N : Int) + 1) baseDelay maxDelay 1 (k - 1)
        ++ (if 1 < k then [LogEvent.succeededOnAttempt operation k] else []) := by
    rw [retryWithBackoff, ht,
      retryLoop_succeedAt V v err fn N baseDelay maxDelay k operation hk hfail h2
        (N + 1) 1 none (by omega) h1 (by omega)]
  refine ⟨hfe, hse,
    waitEvents_length operation err ((N : Int) + 1) baseDelay maxDelay c a, ?_, ?_⟩
  · rw [hfe, List.filter_append, waitEvents_filter_terminal]
    rfl
  · rw [hse, List.filter_append, waitEvents_filter_terminal]
    by_cases hk1 : 1 < k
    · simp [hk1, isTerminalEvent]
    · simp [hk1]

/-- C9 amended witness: under `maxRetries = 3`, an always-failing operation
emits the three per-wait event pairs followed by exactly the terminal
exhaustion event, each wait contributing two events, and an operation
succeeding on its first invocation (`k = 1`) emits no terminal event. -/
theorem retryWithBackoff_terminal_events_witness :
    (1 ≤ 1 ∧ 1 ≤ 3 + 1) ∧
    ((retryWithBackoff Nat (fun _ => Except.error ⟨"boom"⟩) (3 : Int)
        1000 10000 "operation").events
      = waitEvents "operation" (fun _ => ⟨"boom"⟩) ((3 : Int) + 1) 1000 10000 1 3
        ++ [LogEvent.failedAfter "operation" ((3 : Int) + 1)]) ∧
    ((retryWithBackoff Nat (fun _ => Except.ok 9) (3 : Int)
        1000 10000 "operation").events
      = waitEvents "operation" (fun _ => ⟨"boom"⟩) ((3 : Int) + 1) 1000 10000 1 (1 - 1)
        ++ (if 1 < 1 then [LogEvent.succeededOnAttempt "operation" 1] else [])) ∧
    ((waitEvents "operation" (fun _ => ⟨"boom"⟩) ((3 : Int) + 1) 1000 10000 1 3).length
      = 2 * 3) ∧
    ((retryWithBackoff Nat (fun _ => Except.error ⟨"boom"⟩) (3 : Int)
        1000 10000 "operation").events.filter isTerminalEvent
      = [LogEvent.failedAfter "operation" ((3 : Int) + 1)]) ∧
    ((retryWithBackoff Nat (fun _ => Except.ok 9) (3 : Int)
        1000 10000 "operation").events.filter isTerminalEvent
      = if 1 < 1 then [LogEvent.succeededOnAttempt "operation" 1] else []) :=
  ⟨⟨by omega, by omega⟩,
    retryWithBackoff_terminal_events Nat 9 (fun _ => ⟨"boom"⟩)
      (fun _ => Except.error ⟨"boom"⟩) (fun _ => Except.ok 9)
      3 1000 10000 1 "operation" 3 1 (fun _ _ => rfl) (by omega) (by omega) rfl
      (fun i h1i hi => absurd (lt_of_le_of_lt h1i hi) (by omega))⟩

/-- C10: a call with a negative `maxRetries` never invokes the operation and
rejects with the never-assigned `lastError`, i.e. with `undefined`
(modelled as `none`), not with any error produced by the operation. -/
theorem retryWithBackoff_negative_maxRetries (V : Type)
    (fn : Nat → Except JsError V) (baseDelay maxDelay : Nat) (operation : String)
    (maxRetries : Int) (hneg : maxRetries < 0) :
    (retryWithBackoff V fn maxRetries baseDelay maxDelay operation).invocations = 0 ∧
    (retryWithBackoff V fn maxRetries baseDelay maxDelay operation).result
      = Except.error none := by
  have ht : (maxRetries + 1).toNat = 0 := by omega
  rw [retryWithBackoff, ht]
  exact ⟨rfl, rfl⟩

/-- C10 witness: `maxRetries = -1` with an always-failing operation: zero
invocations, rejection with `undefined`. -/
theorem retryWithBackoff_negative_maxRetries_witness :
    ((-1 : Int) < 0) ∧
    (retryWithBackoff Nat (fun _ => Except.error ⟨"boom"⟩) (-1 : Int)
        1000 10000 "operation").invocations = 0 ∧
    (retryWithBackoff Nat (fun _ => Except.error ⟨"boom"⟩) (-1 : Int)
        1000 10000 "operation").result = Except.error none :=
  ⟨by omega,
    retryWithBackoff_negative_maxRetries Nat (fun _ => Except.error ⟨"boom"⟩)
      1000 10000 "operation" (-1) (by omega)⟩

end RetryUtil
